import Mathlib

/-!
Verification of `Sources/CResolvHelpers/CResolvHelpers.c` (orlandos-nl/DNSClient).

The C file defines two functions, `initializeDNS4` and `initializeDNS6`.
Each allocates a fresh `struct __res_state` with `malloc`, declares a local
`union res_sockaddr_union servers` WITHOUT an initializer, calls
`res_ninit(res)`, returns `servers.sin` (resp. `servers.sin6`) immediately
when that call reports failure (`< 0`), and otherwise calls
`res_getservers(res, &servers, 1)` and returns `servers.sin`
(resp. `servers.sin6`).

Shallow embedding used here:

* A socket-address value is its byte image, `List Nat` (one Nat per byte).
  `struct sockaddr_in` is 16 bytes, `struct sockaddr_in6` is 28 bytes, and
  both place the `sa_family_t` tag (an unsigned 16-bit value, stored
  little-endian on the targeted platforms) in bytes 0 and 1.  Reading the
  `sin` member of `union res_sockaddr_union` reads the union's first 16
  bytes; reading `sin6` reads its first 28 bytes.  (The union's trailing
  `__space` padding is never read by either view, so it is not modelled.)
* The ambient OS resolver facility is a `ResolvConf` record: the return
  value `res_ninit` produces in each function's call, the ordered list of
  configured nameserver entries (each the byte image of one union), and the
  count `res_getservers` reports in each call.  The reported count is kept
  as an independent field because the C code discards `res_getservers`'s
  return value, so the model must allow it to vary freely.
* The local union starts out holding arbitrary bytes (`uninit`), because
  the C source declares it without an initializer; this parameter is what
  makes the uninitialized-memory behaviour of the failure paths visible.
* Each function also produces the list of external calls it performs
  (`malloc`, `res_ninit`, `res_getservers`; `free` and `res_nclose` exist
  in the event alphabet but are never emitted, mirroring their absence
  from the source), for the temporal and resource claims.
-/

/-- The Linux/Darwin `AF_INET` address-family constant. -/
def AF_INET : Nat := 2

/-- The Linux `AF_INET6` address-family constant. -/
def AF_INET6 : Nat := 10

/-- Byte images of C values: one `Nat` per byte. -/
abbrev Bytes := List Nat

/-- `sizeof(struct sockaddr_in)`: 16 bytes. -/
def sockaddrInSize : Nat := 16

/-- `sizeof(struct sockaddr_in6)`: 28 bytes. -/
def sockaddrIn6Size : Nat := 28

/-- Reading the `sin` member of a `union res_sockaddr_union`: the union's
first 16 bytes, the footprint of `struct sockaddr_in`. -/
def unionSin (u : Bytes) : Bytes := u.take sockaddrInSize

/-- Reading the `sin6` member of a `union res_sockaddr_union`: the union's
first 28 bytes, the footprint of `struct sockaddr_in6`. -/
def unionSin6 (u : Bytes) : Bytes := u.take sockaddrIn6Size

/-- The `sa_family_t` tag of a socket-address byte image: bytes 0 and 1,
little-endian (both `sockaddr_in.sin_family` and `sockaddr_in6.sin6_family`
sit at offset 0). -/
def saFamily (s : Bytes) : Nat := s.getD 0 0 + 256 * s.getD 1 0

/-- The ambient OS resolver state both functions read.  `ninit4` / `ninit6`
are the values `res_ninit` returns inside `initializeDNS4` /
`initializeDNS6`; `nameservers` is the OS-configured server list, each
entry the byte image of one `union res_sockaddr_union`; `reported4` /
`reported6` are the counts `res_getservers` reports in each call (the C
code never reads them). -/
structure ResolvConf where
  ninit4 : Int
  ninit6 : Int
  nameservers : List Bytes
  reported4 : Int
  reported6 : Int
deriving DecidableEq, Repr

/-- `res_getservers(statp, set, cnt)` as called by this code: the caller
passes a single union as the buffer and `cnt = 1`, so when `cnt ≥ 1` and at
least one nameserver is configured the first configured entry overwrites
the buffer; otherwise the buffer keeps its previous contents.  The second
component is the count the call reports; the C callers discard it. -/
def res_getservers (conf : List Bytes) (buf : Bytes) (cnt : Nat)
    (reported : Int) : Bytes × Int :=
  if cnt = 0 then (buf, reported)
  else
    match conf with
    | [] => (buf, reported)
    | e :: _ => (e, reported)

/-- External calls the two functions perform. `free` and `res_nclose` are
in the alphabet so that their absence from every trace is a statement about
the code, not about the alphabet. -/
inductive REvent where
  | malloc
  | res_ninit (ret : Int)
  | res_getservers (cnt : Nat)
  | free
  | res_nclose
deriving DecidableEq, Repr

/-- `initializeDNS4` from the C source, with its trace of external calls:
`res = malloc(...)`; if `res_ninit(res) < 0`, return the uninitialized
union's `sin` member; otherwise `res_getservers(res, &servers, 1)` (return
value discarded) and return `servers.sin`.  `uninit` is the arbitrary
initial content of the stack union `servers`. -/
def initializeDNS4Run (c : ResolvConf) (uninit : Bytes) :
    Bytes × List REvent :=
  if c.ninit4 < 0 then
    (unionSin uninit, [.malloc, .res_ninit c.ninit4])
  else
    (unionSin (res_getservers c.nameservers uninit 1 c.reported4).1,
     [.malloc, .res_ninit c.ninit4, .res_getservers 1])

/-- `initializeDNS6` from the C source, with its trace of external calls;
identical structure, reading the union's `sin6` member. -/
def initializeDNS6Run (c : ResolvConf) (uninit : Bytes) :
    Bytes × List REvent :=
  if c.ninit6 < 0 then
    (unionSin6 uninit, [.malloc, .res_ninit c.ninit6])
  else
    (unionSin6 (res_getservers c.nameservers uninit 1 c.reported6).1,
     [.malloc, .res_ninit c.ninit6, .res_getservers 1])

/-- The `struct sockaddr_in` value `initializeDNS4` returns. -/
def initializeDNS4 (c : ResolvConf) (uninit : Bytes) : Bytes :=
  (initializeDNS4Run c uninit).1

/-- The `struct sockaddr_in6` value `initializeDNS6` returns. -/
def initializeDNS6 (c : ResolvConf) (uninit : Bytes) : Bytes :=
  (initializeDNS6Run c uninit).1

/-- The external calls `initializeDNS4` performs. -/
def trace4 (c : ResolvConf) (uninit : Bytes) : List REvent :=
  (initializeDNS4Run c uninit).2

/-- The external calls `initializeDNS6` performs. -/
def trace6 (c : ResolvConf) (uninit : Bytes) : List REvent :=
  (initializeDNS6Run c uninit).2

/-- A configuration on which `res_ninit` fails in both calls. -/
def cfgFail : ResolvConf :=
  { ninit4 := -1, ninit6 := -1, nameservers := [], reported4 := 0,
    reported6 := 0 }

/-- A configuration on which `res_ninit` succeeds but the OS reports zero
configured nameservers. -/
def cfgEmpty : ResolvConf :=
  { ninit4 := 0, ninit6 := 0, nameservers := [], reported4 := 0,
    reported6 := 0 }

/-- Stack garbage: a union image whose every byte is `0xFF`. -/
def uninitFF : Bytes := List.replicate sockaddrIn6Size 255

/-- An all-zero union image. -/
def zeros28 : Bytes := List.replicate sockaddrIn6Size 0

/-- A nameserver entry whose family tag is `AF_INET6` (bytes `[10, 0]`,
little-endian), followed by a nonzero address payload. -/
def entryV6 : Bytes := 10 :: 0 :: List.replicate 26 7

/-- A nameserver entry whose family tag is `AF_INET` (bytes `[2, 0]`),
followed by a nonzero address payload. -/
def entryV4 : Bytes := 2 :: 0 :: List.replicate 26 9

/-- Successful initialization, one configured nameserver of family
`AF_INET6`. -/
def cfgV6First : ResolvConf :=
  { ninit4 := 0, ninit6 := 0, nameservers := [entryV6], reported4 := 1,
    reported6 := 1 }

/-- Successful initialization, one `AF_INET` and one `AF_INET6` entry. -/
def cfgDual : ResolvConf :=
  { ninit4 := 0, ninit6 := 0, nameservers := [entryV4, entryV6],
    reported4 := 2, reported6 := 2 }

/-- Stack garbage for a first call: every byte `1`. -/
def uninitA : Bytes := List.replicate sockaddrIn6Size 1

/-- Stack garbage for a second call: every byte `2`. -/
def uninitB : Bytes := List.replicate sockaddrIn6Size 2

/-- `saFamily` only reads bytes 0 and 1, which `List.take n` for `n ≥ 2`
preserves. -/
theorem saFamily_take (u : Bytes) (n : Nat) (hn : 2 ≤ n) :
    saFamily (u.take n) = saFamily u := by
  match u, n with
  | [], _ => simp [saFamily]
  | [a], _ + 1 => simp [saFamily, List.take]
  | a :: b :: _, m + 2 => simp [saFamily, List.take, List.getD]
  | [a], 0 => omega
  | _ :: _ :: _, 0 => omega
  | _ :: _ :: _, 1 => omega

/-- C1: the claim says that when `res_ninit` fails, both functions return an
all-zero address structure.  The code in the repository does not zero the
local union, so on the failure branch both functions return the
uninitialized stack bytes: with garbage `0xFF` in the union, every returned
byte is `255`, not `0`.  (The spec itself mandates the corrected,
zero-initializing revision; the staged source is the uninitialized one.) -/
theorem c1_failure_returns_uninitialized_bytes :
    cfgFail.ninit4 < 0 ∧ cfgFail.ninit6 < 0 ∧
    initializeDNS4 cfgFail uninitFF = List.replicate sockaddrInSize 255 ∧
    initializeDNS6 cfgFail uninitFF = List.replicate sockaddrIn6Size 255 ∧
    (initializeDNS4 cfgFail uninitFF == List.replicate sockaddrInSize 0)
      = false ∧
    (initializeDNS6 cfgFail uninitFF == List.replicate sockaddrIn6Size 0)
      = false := by
  decide

/-- C2 counterexample: initialization succeeds and the OS reports one
configured nameserver, but that first entry carries family `AF_INET6`, and
`initializeDNS4` copies it without inspecting the tag: the returned
structure's family field is `AF_INET6` (10), not the requested `AF_INET`
(2), refuting the claim as stated. -/
theorem c2_family_mismatch_counterexample :
    0 ≤ cfgV6First.ninit4 ∧ cfgV6First.nameservers.length = 1 ∧
    saFamily (initializeDNS4 cfgV6First zeros28) = AF_INET6 ∧
    (saFamily (initializeDNS4 cfgV6First zeros28) == AF_INET) = false := by
  decide

/-- C2 amended: when initialization succeeds, at least one nameserver is
configured, and the first configured entry carries the requested family,
the structure returned by `initializeDNS4` carries the `AF_INET` tag and
the one returned by `initializeDNS6` carries the `AF_INET6` tag. -/
theorem c2_family_matches_first_entry (c : ResolvConf) (u e : Bytes)
    (rest : List Bytes) (h4 : 0 ≤ c.ninit4) (h6 : 0 ≤ c.ninit6)
    (he : c.nameservers = e :: rest) :
    (saFamily e = AF_INET → saFamily (initializeDNS4 c u) = AF_INET) ∧
    (saFamily e = AF_INET6 → saFamily (initializeDNS6 c u) = AF_INET6) := by
  have h4n : ¬ c.ninit4 < 0 := by omega
  have h6n : ¬ c.ninit6 < 0 := by omega
  constructor
  · intro hf
    rw [initializeDNS4, initializeDNS4Run, if_neg h4n]
    show saFamily (unionSin (res_getservers c.nameservers u 1 c.reported4).1)
      = AF_INET
    rw [he]
    show saFamily (unionSin e) = AF_INET
    rw [unionSin, saFamily_take e sockaddrInSize (by norm_num [sockaddrInSize])]
    exact hf
  · intro hf
    rw [initializeDNS6, initializeDNS6Run, if_neg h6n]
    show saFamily (unionSin6 (res_getservers c.nameservers u 1 c.reported6).1)
      = AF_INET6
    rw [he]
    show saFamily (unionSin6 e) = AF_INET6
    rw [unionSin6,
      saFamily_take e sockaddrIn6Size (by norm_num [sockaddrIn6Size])]
    exact hf

/-- C2 witness: on `cfgDual` (successful initialization, first entry of
family `AF_INET`), `initializeDNS4` returns a structure tagged `AF_INET`. -/
theorem c2_family_matches_first_entry_witness :
    saFamily (initializeDNS4 cfgDual zeros28) = AF_INET :=
  (c2_family_matches_first_entry cfgDual zeros28 entryV4 [entryV6]
    (by decide) (by decide) rfl).1 (by decide)

/-- C3: the claim says that on successful initialization with zero
configured nameservers each function returns an all-zero structure.  With
zero entries `res_getservers` leaves the buffer untouched, and the code
never zeroed it, so both functions return the uninitialized stack bytes:
with garbage `0xFF`, every returned byte is `255`. -/
theorem c3_zero_servers_returns_uninitialized_bytes :
    0 ≤ cfgEmpty.ninit4 ∧ 0 ≤ cfgEmpty.ninit6 ∧
    cfgEmpty.nameservers = [] ∧
    initializeDNS4 cfgEmpty uninitFF = List.replicate sockaddrInSize 255 ∧
    initializeDNS6 cfgEmpty uninitFF = List.replicate sockaddrIn6Size 255 ∧
    (initializeDNS4 cfgEmpty uninitFF == List.replicate sockaddrInSize 0)
      = false := by
  decide

/-- C4: the claim says two consecutive calls under a fixed OS configuration
return identical structures.  On the failure branch the result is whatever
bytes the uninitialized stack union happens to hold, which a second call
need not reproduce: under the same `cfgFail`, garbage `1`-bytes and garbage
`2`-bytes give different results (likewise for `initializeDNS6` on the
successful-but-empty configuration `cfgEmpty`). -/
theorem c4_consecutive_calls_can_differ :
    (initializeDNS4 cfgFail uninitA == initializeDNS4 cfgFail uninitB)
      = false ∧
    (initializeDNS6 cfgEmpty uninitA == initializeDNS6 cfgEmpty uninitB)
      = false := by
  decide

/-- The first component of `res_getservers` (the buffer after the call)
does not depend on the count the call reports. -/
theorem res_getservers_fst_congr (conf : List Bytes) (buf : Bytes)
    (cnt : Nat) (r r' : Int) :
    (res_getservers conf buf cnt r).1 = (res_getservers conf buf cnt r').1 := by
  unfold res_getservers
  cases conf <;> split <;> rfl

/-- C5: each operation requests at most one entry (every `res_getservers`
call in either trace passes count 1), the result never depends on entries
beyond the first (truncating the configured list to its first element
changes nothing), and on a successful-initialization execution with a
first entry `e` the result is exactly the requested-family member of `e`. -/
theorem c5_only_first_entry_consumed (c : ResolvConf) (u : Bytes) :
    (∀ n, REvent.res_getservers n ∈ trace4 c u → n = 1) ∧
    (∀ n, REvent.res_getservers n ∈ trace6 c u → n = 1) ∧
    initializeDNS4 c u
      = initializeDNS4 { c with nameservers := c.nameservers.take 1 } u ∧
    initializeDNS6 c u
      = initializeDNS6 { c with nameservers := c.nameservers.take 1 } u ∧
    (∀ e rest, 0 ≤ c.ninit4 → c.nameservers = e :: rest →
      initializeDNS4 c u = unionSin e) ∧
    (∀ e rest, 0 ≤ c.ninit6 → c.nameservers = e :: rest →
      initializeDNS6 c u = unionSin6 e) := by
  refine ⟨?_, ?_, ?_, ?_, ?_, ?_⟩
  · intro n hn
    by_cases h : c.ninit4 < 0
    · simp [trace4, initializeDNS4Run, h] at hn
    · simp [trace4, initializeDNS4Run, h] at hn
      exact hn
  · intro n hn
    by_cases h : c.ninit6 < 0
    · simp [trace6, initializeDNS6Run, h] at hn
    · simp [trace6, initializeDNS6Run, h] at hn
      exact hn
  · by_cases h : c.ninit4 < 0
    · simp [initializeDNS4, initializeDNS4Run, h]
    · cases hns : c.nameservers with
      | nil => simp [initializeDNS4, initializeDNS4Run, h, hns, res_getservers]
      | cons e rest =>
          simp [initializeDNS4, initializeDNS4Run, h, hns, res_getservers]
  · by_cases h : c.ninit6 < 0
    · simp [initializeDNS6, initializeDNS6Run, h]
    · cases hns : c.nameservers with
      | nil => simp [initializeDNS6, initializeDNS6Run, h, hns, res_getservers]
      | cons e rest =>
          simp [initializeDNS6, initializeDNS6Run, h, hns, res_getservers]
  · intro e rest h4 he
    have h : ¬ c.ninit4 < 0 := by omega
    simp [initializeDNS4, initializeDNS4Run, h, he, res_getservers]
  · intro e rest h6 he
    have h : ¬ c.ninit6 < 0 := by omega
    simp [initializeDNS6, initializeDNS6Run, h, he, res_getservers]

/-- C6: the two operations share no state.  On a valid dual-stack
configuration (both `res_ninit` calls succeed, at least one nameserver),
forcing the IPv4 path's `res_ninit` to fail (and zeroing its reported
count) leaves `initializeDNS6`'s successful result unchanged, and
symmetrically for the IPv6 path; each successful result is the
corresponding member of the first configured entry. -/
theorem c6_operations_independent (c : ResolvConf) (u4 u6 : Bytes)
    (h4 : 0 ≤ c.ninit4) (h6 : 0 ≤ c.ninit6)
    (hns : c.nameservers ≠ []) :
    initializeDNS6 { c with ninit4 := -1, reported4 := 0 } u6
      = initializeDNS6 c u6 ∧
    initializeDNS4 { c with ninit6 := -1, reported6 := 0 } u4
      = initializeDNS4 c u4 ∧
    initializeDNS4 c u4 = unionSin (c.nameservers.headD u4) ∧
    initializeDNS6 c u6 = unionSin6 (c.nameservers.headD u6) := by
  have h4n : ¬ c.ninit4 < 0 := by omega
  have h6n : ¬ c.ninit6 < 0 := by omega
  refine ⟨rfl, rfl, ?_, ?_⟩
  · cases hl : c.nameservers with
    | nil => exact absurd hl hns
    | cons e rest =>
        simp [initializeDNS4, initializeDNS4Run, h4n, hl, res_getservers]
  · cases hl : c.nameservers with
    | nil => exact absurd hl hns
    | cons e rest =>
        simp [initializeDNS6, initializeDNS6Run, h6n, hl, res_getservers]

/-- C6 witness: on the dual-stack `cfgDual`, forcing the IPv4 path's
initialization to fail leaves `initializeDNS6`'s result unchanged. -/
theorem c6_operations_independent_witness :
    initializeDNS6 { cfgDual with ninit4 := -1, reported4 := 0 } zeros28
      = initializeDNS6 cfgDual zeros28 :=
  (c6_operations_independent cfgDual zeros28 zeros28 (by decide) (by decide)
    (by decide)).1

/-- C7: in each function, `res_getservers` runs only after a successful
`res_ninit`: on the failure branch the trace is exactly
`[malloc, res_ninit ret]` and holds no `res_getservers` event, on the
success branch the `res_getservers` event follows the successful
`res_ninit` event, and any `res_getservers` event in a trace implies the
corresponding `res_ninit` returned `≥ 0`. -/
theorem c7_getservers_only_after_ninit (c : ResolvConf) (u : Bytes) :
    (c.ninit4 < 0 → trace4 c u = [.malloc, .res_ninit c.ninit4] ∧
      ∀ n, REvent.res_getservers n ∉ trace4 c u) ∧
    (0 ≤ c.ninit4 →
      trace4 c u = [.malloc, .res_ninit c.ninit4, .res_getservers 1]) ∧
    (∀ n, REvent.res_getservers n ∈ trace4 c u → 0 ≤ c.ninit4) ∧
    (c.ninit6 < 0 → trace6 c u = [.malloc, .res_ninit c.ninit6] ∧
      ∀ n, REvent.res_getservers n ∉ trace6 c u) ∧
    (0 ≤ c.ninit6 →
      trace6 c u = [.malloc, .res_ninit c.ninit6, .res_getservers 1]) ∧
    (∀ n, REvent.res_getservers n ∈ trace6 c u → 0 ≤ c.ninit6) := by
  refine ⟨fun h => ⟨?_, ?_⟩, fun h => ?_, fun n hn => ?_,
          fun h => ⟨?_, ?_⟩, fun h => ?_, fun n hn => ?_⟩
  · simp [trace4, initializeDNS4Run, h]
  · intro n
    simp [trace4, initializeDNS4Run, h]
  · simp [trace4, initializeDNS4Run, show ¬ c.ninit4 < 0 by omega]
  · by_cases h : c.ninit4 < 0
    · simp [trace4, initializeDNS4Run, h] at hn
    · omega
  · simp [trace6, initializeDNS6Run, h]
  · intro n
    simp [trace6, initializeDNS6Run, h]
  · simp [trace6, initializeDNS6Run, show ¬ c.ninit6 < 0 by omega]
  · by_cases h : c.ninit6 < 0
    · simp [trace6, initializeDNS6Run, h] at hn
    · omega

/-- C8: the count `res_getservers` reports is never error-checked: changing
the reported count (buffer behaviour fixed) changes neither function's
result, and on a successful-initialization execution the result is exactly
the requested-family view of the buffer as it stands after the query,
whatever count is reported. -/
theorem c8_reported_count_ignored (c : ResolvConf) (u : Bytes)
    (r r4 r6 : Int) :
    initializeDNS4 { c with reported4 := r4 } u = initializeDNS4 c u ∧
    initializeDNS6 { c with reported6 := r6 } u = initializeDNS6 c u ∧
    (0 ≤ c.ninit4 →
      initializeDNS4 c u = unionSin (res_getservers c.nameservers u 1 r).1) ∧
    (0 ≤ c.ninit6 →
      initializeDNS6 c u = unionSin6 (res_getservers c.nameservers u 1 r).1) := by
  refine ⟨?_, ?_, fun h => ?_, fun h => ?_⟩
  · by_cases h : c.ninit4 < 0
    · simp [initializeDNS4, initializeDNS4Run, h]
    · simp only [initializeDNS4, initializeDNS4Run, h, if_neg]
      rw [res_getservers_fst_congr c.nameservers u 1 r4 c.reported4]
  · by_cases h : c.ninit6 < 0
    · simp [initializeDNS6, initializeDNS6Run, h]
    · simp only [initializeDNS6, initializeDNS6Run, h, if_neg]
      rw [res_getservers_fst_congr c.nameservers u 1 r6 c.reported6]
  · rw [initializeDNS4, initializeDNS4Run, if_neg (by omega : ¬ c.ninit4 < 0)]
    rw [res_getservers_fst_congr c.nameservers u 1 c.reported4 r]
  · rw [initializeDNS6, initializeDNS6Run, if_neg (by omega : ¬ c.ninit6 < 0)]
    rw [res_getservers_fst_congr c.nameservers u 1 c.reported6 r]

/-- C9: no filtering by family.  On a successful-initialization execution
whose first configured entry `e` carries the OTHER family's tag,
`initializeDNS4` still returns `e`'s `sin` member and `initializeDNS6`
still returns `e`'s `sin6` member: the entry's family tag is never
inspected. -/
theorem c9_no_family_filtering (c : ResolvConf) (u e : Bytes)
    (rest : List Bytes) (h4 : 0 ≤ c.ninit4) (h6 : 0 ≤ c.ninit6)
    (he : c.nameservers = e :: rest) :
    (saFamily e = AF_INET6 → initializeDNS4 c u = unionSin e) ∧
    (saFamily e = AF_INET → initializeDNS6 c u = unionSin6 e) := by
  have h4n : ¬ c.ninit4 < 0 := by omega
  have h6n : ¬ c.ninit6 < 0 := by omega
  constructor
  · intro _
    simp [initializeDNS4, initializeDNS4Run, h4n, he, res_getservers]
  · intro _
    simp [initializeDNS6, initializeDNS6Run, h6n, he, res_getservers]

/-- C9 witness: on `cfgV6First` (one configured entry, family `AF_INET6`),
`initializeDNS4` returns that entry's `sin` member nonetheless. -/
theorem c9_no_family_filtering_witness :
    initializeDNS4 cfgV6First zeros28 = unionSin entryV6 :=
  (c9_no_family_filtering cfgV6First zeros28 entryV6 [] (by decide)
    (by decide) rfl).1 (by decide)

/-- C10: every call to either function performs exactly one `malloc`, and
no execution path ever performs a `free` or a `res_nclose`: each call
permanently retains its resolver-state allocation. -/
theorem c10_malloc_never_released (c : ResolvConf) (u : Bytes) :
    (trace4 c u).count REvent.malloc = 1 ∧
    (trace4 c u).count REvent.free = 0 ∧
    (trace4 c u).count REvent.res_nclose = 0 ∧
    (trace6 c u).count REvent.malloc = 1 ∧
    (trace6 c u).count REvent.free = 0 ∧
    (trace6 c u).count REvent.res_nclose = 0 := by
  refine ⟨?_, ?_, ?_, ?_, ?_, ?_⟩ <;>
    [by_cases h : c.ninit4 < 0; by_cases h : c.ninit4 < 0;
     by_cases h : c.ninit4 < 0; by_cases h : c.ninit6 < 0;
     by_cases h : c.ninit6 < 0; by_cases h : c.ninit6 < 0] <;>
    simp [trace4, trace6, initializeDNS4Run, initializeDNS6Run, h,
      List.count_cons, List.count_nil]
